import Mathlib

/-!
Verification development for ntfy-to-slack (src/ntfy-to-slack.go).

The program bridges an ntfy pub/sub stream to a Slack webhook.  Its core is:

* `main` (lines 80-87): an unconditional supervisory loop that calls
  `waitForNtfyMessage`, logs the outcome, sleeps 30 seconds and retries.
* `waitForNtfyMessage` (lines 90-150): opens a streaming GET to
  `https://{domain}/{topic}/json`, scans the body line by line with a
  `bufio.Scanner`, JSON-decodes each line into an `ntfyMessage`, classifies it
  by its `Event` field and dispatches `message` events to `sendToSlack` in a
  detached goroutine.
* `sendToSlack` (lines 152-195): marshals a `slackMessage` and POSTs it to the
  configured webhook URL.

External collaborators (Go standard library: `net/http` transport,
`encoding/json` decoding of inbound lines) are modelled as parameters or as
small faithful models; each such modelling choice is documented at the
definition it concerns.  Effects (log calls, goroutine spawns) are reified as
explicit effect lists so that the control flow of the source can be stated.
-/

namespace NtfyToSlack

/-- The inbound event record, mirroring Go `type ntfyMessage struct` (lines
30-37).  Go `int64` is modelled as `Int`; `encoding/json` leaves absent fields
at their zero value, so an event without a title decodes to `Title = ""`. -/
structure ntfyMessage where
  Id : String
  Time : Int
  Event : String
  Topic : String
  Title : String
  Message : String
  deriving Repr, DecidableEq

/-- The outbound payload, mirroring Go `type slackMessage struct` (lines
39-41): a single `text` field. -/
structure slackMessage where
  Text : String
  deriving Repr, DecidableEq

/-- An HTTP request as the program builds it: method, URL, headers, optional
body. -/
structure HttpRequest where
  method : String
  url : String
  headers : List (String × String)
  body : Option String
  deriving Repr, DecidableEq

/-- The immutable configuration read by `waitForNtfyMessage`: the global
pointers `ntfyDomain`, `ntfyTopic`, `ntfyAuth` (lines 24-26).  `ntfyAuth` is a
Go `*string`; `none` models a nil pointer. -/
structure ntfyConfig where
  ntfyDomain : String
  ntfyTopic : String
  ntfyAuth : Option String
  deriving Repr, DecidableEq

/-- Models how `main` initialises the `ntfyAuth` pointer (lines 64 and 69):
`flag.String("ntfy-auth", envNtfyAuth, ...)` always returns a non-nil pointer,
whose value is the command-line flag when given and otherwise the `NTFY_AUTH`
environment value, which is `""` when the variable is unset.  In particular
the pointer is `some _` in every run of the program. -/
def mainNtfyAuth (envNtfyAuth : String) (flagNtfyAuth : Option String) : Option String :=
  some (flagNtfyAuth.getD envNtfyAuth)

/-- The request construction of `waitForNtfyMessage` (lines 92-103): a GET to
`"https://" ++ domain ++ "/" ++ topic ++ "/json"` with no body; the
`Authorization: Bearer {auth}` header is added exactly when the `ntfyAuth`
pointer is non-nil (`if ntfyAuth != nil`, line 101).  `http.NewRequest` cannot
fail here beyond URL parsing, which is not modelled. -/
def buildNtfyRequest (cfg : ntfyConfig) : HttpRequest :=
  let base : HttpRequest :=
    ⟨"GET", "https://" ++ cfg.ntfyDomain ++ "/" ++ cfg.ntfyTopic ++ "/json", [], none⟩
  match cfg.ntfyAuth with
  | none => base
  | some auth => ⟨base.method, base.url, [("Authorization", "Bearer " ++ auth)], base.body⟩

/-- How the inbound body stream ends after its scanned lines: a clean server
close (EOF) or a read-level transport error.  The Go code never inspects this
(it never calls `scanner.Err()`), which is exactly what claims about session
termination are about. -/
inductive StreamEnd where
  | eof
  | readError (e : String)
  deriving Repr, DecidableEq

/-- The inbound HTTP exchange as observed by `waitForNtfyMessage`: a status
code, the newline-delimited records of the body, and how the stream ends after
them. -/
structure NtfyHttpResponse where
  statusCode : Nat
  lines : List String
  ending : StreamEnd
  deriving Repr, DecidableEq

/-- Observable effects of one session of `waitForNtfyMessage`: the `slog`
calls and the `go sendToSlack(...)` goroutine spawns, in program order. -/
inductive SessionEffect where
  | logConnectError (e : String)
  | logInvalidStatus (expected got : Nat)
  | logDecodeError (line : String)
  | logSubscriptionEstablished
  | logKeepalive
  | logSending (title message : String)
  | dispatch (post : slackMessage)
  | logBadMessage (line : String)
  deriving Repr, DecidableEq

/-- The event classification of `waitForNtfyMessage` (lines 124-146): the
`switch msg.Event` over a successfully decoded line.  `message` events spawn
`go sendToSlack(&slackMessage{...})` with text `"**" ++ Title ++ "**: " ++
Message` when `msg.Title != ""` and `Message` alone otherwise (lines 131-141);
`open` and `keepalive` only log; any other kind logs the raw line as a bad
message.  Every branch ends in `continue`. -/
def handleEvent (line : String) (msg : ntfyMessage) : List SessionEffect :=
  if msg.Event = "open" then [SessionEffect.logSubscriptionEstablished]
  else if msg.Event = "keepalive" then [SessionEffect.logKeepalive]
  else if msg.Event = "message" then
    SessionEffect.logSending msg.Title msg.Message ::
    (if msg.Title ≠ "" then
      [SessionEffect.dispatch ⟨"**" ++ msg.Title ++ "**: " ++ msg.Message⟩]
    else
      [SessionEffect.dispatch ⟨msg.Message⟩])
  else [SessionEffect.logBadMessage line]

/-- One iteration of the scan loop body (lines 117-122): the line is decoded
by `json.Unmarshal`; a decode failure is logged and the loop `continue`s to
the next line.  `encoding/json` is Go standard library, not code of this
repository, so the decoder is a parameter `decode`; `none` models a failing
`json.Unmarshal`, `some msg` a successful decode into `msg`. -/
def handleLine (decode : String → Option ntfyMessage) (line : String) : List SessionEffect :=
  match decode line with
  | none => [SessionEffect.logDecodeError line]
  | some msg => handleEvent line msg

/-- The scan loop of `waitForNtfyMessage` (lines 116-147) over the lines the
scanner yields, in order. -/
def processLines (decode : String → Option ntfyMessage) : List String → List SessionEffect
  | [] => []
  | line :: rest => handleLine decode line ++ processLines decode rest

/-- Go `bufio.MaxScanTokenSize = 64 * 1024`, the default buffer limit of
`bufio.Scanner` (line 115 uses `bufio.NewScanner` with defaults). -/
def maxScanTokenSize : Nat := 65536

/-- Models Go standard library `bufio.Scanner` with the default `ScanLines`
split and default buffer (line 115): lines are yielded in order as long as
the line plus its newline fits the 64 KiB buffer, i.e. while the line is
strictly shorter than `maxScanTokenSize` bytes; at the first line of 65536
bytes or more, `Scan` returns `false` with `ErrTooLong` and no further data is
yielded. -/
def scannedLines (lines : List String) : List String :=
  lines.takeWhile fun l => l.utf8ByteSize < maxScanTokenSize

/-- The session function `waitForNtfyMessage` (lines 90-150).  The `net/http`
transport is the parameter `doRequest`; `Except.error e` models a failing
`client.Do` (line 106).  On a non-200 status the function logs the status code
and returns `errors.New("invalid response code from ntfy")` (lines 109-112).
Otherwise it scans the body (the scanner stopping also at an over-long line or
at the stream's end, neither of which is inspected: `scanner.Err()` is never
called) and returns `nil` (line 149).  Errors are the Go error strings; the
result pairs the returned error value with the session's effects. -/
def waitForNtfyMessage (cfg : ntfyConfig)
    (doRequest : HttpRequest → Except String NtfyHttpResponse)
    (decode : String → Option ntfyMessage) :
    Except String Unit × List SessionEffect :=
  match doRequest (buildNtfyRequest cfg) with
  | Except.error e => (Except.error e, [SessionEffect.logConnectError e])
  | Except.ok resp =>
    if resp.statusCode ≠ 200 then
      (Except.error "invalid response code from ntfy",
       [SessionEffect.logInvalidStatus 200 resp.statusCode])
    else
      (Except.ok (), processLines decode (scannedLines resp.lines))

/-- The dispatched post texts among a session's effects: the `Text` fields of
the `slackMessage` values handed to `go sendToSlack(...)`, in order. -/
def dispatchedTexts (effects : List SessionEffect) : List String :=
  effects.filterMap fun e =>
    match e with
    | SessionEffect.dispatch post => some post.Text
    | _ => none

/-- One JSON-escaped character, for the model of `json.Marshal`. -/
def escapeJsonChar (c : Char) : String :=
  if c = '\\' then "\\\\"
  else if c = '"' then "\\\""
  else if c = '\n' then "\\n"
  else String.singleton c

/-- JSON string escaping over the characters of the text. -/
def escapeJsonString (s : String) : String :=
  String.join (s.data.map escapeJsonChar)

/-- Models Go standard library `json.Marshal` applied to a `slackMessage`
(line 157): the object with single field `text` holding the escaped text.
For this struct `json.Marshal` never fails, so the model is total.  No claim
inspects the serialized body, only that it is what is POSTed. -/
def marshalSlackMessage (m : slackMessage) : String :=
  "\x7b\"text\":\"" ++ escapeJsonString m.Text ++ "\"\x7d"

/-- The outbound request construction of `sendToSlack` (lines 162-170): a POST
of the marshalled bytes to the configured webhook URL with a
`Content-Type: application/json` header. -/
def buildSlackRequest (url : String) (jsonBytes : String) : HttpRequest :=
  ⟨"POST", url, [("Content-Type", "application/json")], some jsonBytes⟩

/-- The outbound HTTP exchange as observed by `sendToSlack`: status code and
the fully received response body. -/
structure SlackHttpResponse where
  statusCode : Nat
  body : String
  deriving Repr, DecidableEq

/-- Observable logging of `sendToSlack`: the debug log of the response status
and the fully read body (line 187). -/
inductive SlackEffect where
  | logSlackResponse (status : Nat) (body : String)
  deriving Repr, DecidableEq

/-- The delivery function `sendToSlack` (lines 152-195).  A nil `webhook`
pointer (`none`) returns `errors.New("webhook undefined")` before anything
else (lines 153-155).  The `net/http` transport is the parameter `doPost`:
`Except.error e` models any transport failure — a failing `client.Do`
(line 174) or a failing `io.ReadAll` of the response body (line 183), both of
which the Go code returns as-is; `Except.ok resp` models a completed exchange
whose body was fully received, which the code logs at debug level (line 187).
A status of 400 or more then returns
`errors.New("error status code " + strconv.FormatInt(code, 10))`
(lines 190-192); otherwise the function returns `nil`. -/
def sendToSlack (slackWebhookUrl : String)
    (doPost : HttpRequest → Except String SlackHttpResponse)
    (webhook : Option slackMessage) :
    Except String Unit × List SlackEffect :=
  match webhook with
  | none => (Except.error "webhook undefined", [])
  | some w =>
    let jsonBytes := marshalSlackMessage w
    match doPost (buildSlackRequest slackWebhookUrl jsonBytes) with
    | Except.error e => (Except.error e, [])
    | Except.ok resp =>
      if resp.statusCode ≥ 400 then
        (Except.error ("error status code " ++ toString resp.statusCode),
         [SlackEffect.logSlackResponse resp.statusCode resp.body])
      else
        (Except.ok (), [SlackEffect.logSlackResponse resp.statusCode resp.body])

/-- Observable events of the supervisory loop in `main` (lines 80-87): a call
of the session function, the log of its outcome, and the sleep between
attempts. -/
inductive MainEvent where
  | callSession
  | logSessionError (e : String)
  | logRestart
  | sleep (seconds : Nat)
  deriving Repr, DecidableEq

/-- The outcome log of one loop iteration (lines 81-85): `slog.Error` with the
session's error when it failed, `slog.Info("connection closed, restarting")`
when it returned cleanly. -/
def mainLogOf (r : Except String Unit) : MainEvent :=
  match r with
  | Except.error e => MainEvent.logSessionError e
  | Except.ok _ => MainEvent.logRestart

/-- One iteration of the supervisory `for` loop (lines 80-87): call the
session, log the outcome, `time.Sleep(30 * time.Second)`. -/
def mainIteration (r : Except String Unit) : List MainEvent :=
  [MainEvent.callSession, mainLogOf r, MainEvent.sleep 30]

/-- The trace of the first `n` iterations of the supervisory loop, given the
stream of session outcomes.  The Go loop has no exit: `for { ... }` with no
`break` or `return`, so the trace is defined for every `n`. -/
def mainTrace (results : Nat → Except String Unit) : Nat → List MainEvent
  | 0 => []
  | n + 1 => mainTrace results n ++ mainIteration (results n)

/-- The post text a `message` event produces, as §3 of the spec states it:
`"**{title}**: {body}"` when the title is non-empty, the body alone otherwise.
Used to phrase theorems; the source translation is `handleEvent`. -/
def slackTextOf (msg : ntfyMessage) : String :=
  if msg.Title ≠ "" then "**" ++ msg.Title ++ "**: " ++ msg.Message else msg.Message

/-- A concrete `message` event with a title (spec §8, Scenario A). -/
def demoMessage1 : ntfyMessage := ⟨"1", 1000, "message", "t", "Alert", "disk full"⟩

/-- A concrete `message` event without a title (spec §8, Scenario B). -/
def demoMessage2 : ntfyMessage := ⟨"2", 1001, "message", "t", "", "ping"⟩

/-- A concrete `keepalive` event (spec §8, Scenario C). -/
def demoKeepalive : ntfyMessage := ⟨"3", 1002, "keepalive", "t", "", ""⟩

/-- A concrete decoder for witnesses: an instance of the `decode` parameter
mapping three known lines to the demo events and failing on everything
else. -/
def demoDecode (line : String) : Option ntfyMessage :=
  if line = "A" then some demoMessage1
  else if line = "B" then some demoMessage2
  else if line = "K" then some demoKeepalive
  else none

/-- A concrete inbound line of 65537 bytes, above the scanner's default
maximum token size. -/
def oversizedLine : String := String.mk (List.replicate 65537 'a')

/-! Helper lemmas. -/

theorem dispatchedTexts_append (a b : List SessionEffect) :
    dispatchedTexts (a ++ b) = dispatchedTexts a ++ dispatchedTexts b :=
  List.filterMap_append a b _

theorem dispatchedTexts_handleEvent_message (line : String) (msg : ntfyMessage)
    (h : msg.Event = "message") :
    dispatchedTexts (handleEvent line msg) = [slackTextOf msg] := by
  by_cases ht : msg.Title = "" <;>
    simp [handleEvent, h, slackTextOf, ht, dispatchedTexts]

theorem takeWhile_append_sat {α : Type} (p : α → Bool) (pre : List α) (l : α)
    (post : List α) (hpre : ∀ x ∈ pre, p x = true) (hl : p l = false) :
    (pre ++ l :: post).takeWhile p = pre := by
  induction pre with
  | nil => simp [List.takeWhile, hl]
  | cons a as ih =>
    have ha : p a = true := hpre a (by simp)
    simp only [List.cons_append, List.takeWhile_cons, ha, if_true]
    simp [ih fun x hx => hpre x (by simp [hx])]

theorem utf8Len_replicate (n : Nat) :
    String.utf8Len (List.replicate n 'a') = n := by
  induction n with
  | zero => rfl
  | succ k ih =>
    simp only [List.replicate_succ, String.utf8Len_cons, ih]
    rfl

theorem oversizedLine_size : oversizedLine.utf8ByteSize = 65537 := by
  rw [oversizedLine, String.utf8ByteSize_mk, utf8Len_replicate]

theorem sendToSlack_some (url : String)
    (doPost : HttpRequest → Except String SlackHttpResponse) (w : slackMessage) :
    sendToSlack url doPost (some w) =
      match doPost (buildSlackRequest url (marshalSlackMessage w)) with
      | Except.error e => (Except.error e, [])
      | Except.ok resp =>
        if resp.statusCode ≥ 400 then
          (Except.error ("error status code " ++ toString resp.statusCode),
           [SlackEffect.logSlackResponse resp.statusCode resp.body])
        else
          (Except.ok (), [SlackEffect.logSlackResponse resp.statusCode resp.body]) :=
  rfl

/-! Claims. -/

/-- C1: for every decoded inbound event whose kind is `"message"`, the text of
the outbound post handed to the dispatcher equals
`"**" ++ title ++ "**: " ++ body` when the event's title is a non-empty
string, and equals the body exactly when the title is the empty string. -/
theorem C1_message_dispatch_text (line : String) (msg : ntfyMessage)
    (h : msg.Event = "message") :
    (msg.Title ≠ "" →
      dispatchedTexts (handleEvent line msg) =
        ["**" ++ msg.Title ++ "**: " ++ msg.Message]) ∧
    (msg.Title = "" →
      dispatchedTexts (handleEvent line msg) = [msg.Message]) := by
  constructor <;> intro ht <;>
    simp [handleEvent, h, ht, dispatchedTexts]

/-- Witness for C1 at Scenario A: the event with title `"Alert"` and body
`"disk full"` dispatches exactly the text `"**Alert**: disk full"`. -/
theorem C1_message_dispatch_text_witness :
    dispatchedTexts (handleEvent "lineA" demoMessage1) = ["**Alert**: disk full"] := by
  have h := C1_message_dispatch_text "lineA" demoMessage1 rfl
  exact h.1 (by decide)

/-- C2: the supervisory loop never terminates: after every return of the
session function, error or clean, it logs the outcome, sleeps exactly 30
seconds and calls the session function again; the trace of `n` iterations
contains exactly `n` session calls for every `n` (no maximum-attempt cutoff)
and every sleep in it is 30 seconds. -/
theorem C2_supervisory_loop (results : Nat → Except String Unit) (n : Nat) :
    (mainTrace results n).count MainEvent.callSession = n ∧
    (∀ s, MainEvent.sleep s ∈ mainTrace results n → s = 30) ∧
    mainTrace results (n + 1) =
      mainTrace results n ++
        [MainEvent.callSession, mainLogOf (results n), MainEvent.sleep 30] := by
  refine ⟨?_, ?_, rfl⟩
  · induction n with
    | zero => rfl
    | succ k ih =>
      have hcount : (mainIteration (results k)).count MainEvent.callSession = 1 := by
        cases hr : results k <;> simp [mainIteration, mainLogOf]
      simp [mainTrace, List.count_append, ih, hcount]
  · induction n with
    | zero => intro s hs; simp [mainTrace] at hs
    | succ k ih =>
      intro s hs
      simp only [mainTrace, List.mem_append] at hs
      rcases hs with hs | hs
      · exact ih s hs
      · cases hr : results k <;> rw [hr] at hs <;>
          simp [mainIteration, mainLogOf] at hs <;> exact hs

/-- Witness for C2 at a concrete outcome stream: two iterations over an
always-failing session give exactly two session calls, and the third
iteration appends the error log, the 30-second sleep and the next call. -/
theorem C2_supervisory_loop_witness :
    (mainTrace (fun _ => Except.error "boom") 2).count MainEvent.callSession = 2 ∧
    mainTrace (fun _ => Except.error "boom") 3 =
      mainTrace (fun _ => Except.error "boom") 2 ++
        [MainEvent.callSession, MainEvent.logSessionError "boom", MainEvent.sleep 30] := by
  have h := C2_supervisory_loop (fun _ => Except.error "boom") 2
  exact ⟨h.1, h.2.2⟩

/-- C7: a nil destination reference makes the delivery function fail with the
configuration error `"webhook undefined"` before any network I/O: the result
does not depend on the transport at all (no request is issued). -/
theorem C7_nil_webhook (url : String)
    (doPost doPost' : HttpRequest → Except String SlackHttpResponse) :
    sendToSlack url doPost none = (Except.error "webhook undefined", []) ∧
    sendToSlack url doPost none = sendToSlack url doPost' none :=
  ⟨rfl, rfl⟩

/-- C9: once a 200 response has been received, the session function always
returns `nil`, for every way the stream ends: the result is `Except.ok` and
is identical whether the stream ends in a read error or a clean server close
(`scanner.Err()` is never checked). -/
theorem C9_clean_return_after_200 (cfg : ntfyConfig)
    (decode : String → Option ntfyMessage) (lines : List String)
    (ending : StreamEnd) :
    (waitForNtfyMessage cfg (fun _ => Except.ok ⟨200, lines, ending⟩) decode).1 =
      Except.ok () ∧
    waitForNtfyMessage cfg (fun _ => Except.ok ⟨200, lines, ending⟩) decode =
      waitForNtfyMessage cfg (fun _ => Except.ok ⟨200, lines, StreamEnd.eof⟩) decode :=
  ⟨rfl, rfl⟩

/-- C3: a line that fails to decode is logged and skipped and the session
continues with the following lines; in particular a malformed line between two
valid `message` lines still gets both messages dispatched, in order. -/
theorem C3_malformed_line_skipped (decode : String → Option ntfyMessage)
    (l1 lbad l2 : String) (rest : List String) (m1 m2 : ntfyMessage)
    (hbad : decode lbad = none)
    (h1 : decode l1 = some m1) (he1 : m1.Event = "message")
    (h2 : decode l2 = some m2) (he2 : m2.Event = "message") :
    processLines decode (l1 :: lbad :: l2 :: rest) =
      handleEvent l1 m1 ++ [SessionEffect.logDecodeError lbad] ++ handleEvent l2 m2 ++
        processLines decode rest ∧
    dispatchedTexts (processLines decode (l1 :: lbad :: l2 :: rest)) =
      slackTextOf m1 :: slackTextOf m2 ::
        dispatchedTexts (processLines decode rest) := by
  have hshape : processLines decode (l1 :: lbad :: l2 :: rest) =
      handleEvent l1 m1 ++ [SessionEffect.logDecodeError lbad] ++ handleEvent l2 m2 ++
        processLines decode rest := by
    simp [processLines, handleLine, hbad, h1, h2]
  refine ⟨hshape, ?_⟩
  rw [hshape]
  simp only [dispatchedTexts_append, dispatchedTexts_handleEvent_message l1 m1 he1,
    dispatchedTexts_handleEvent_message l2 m2 he2]
  simp [dispatchedTexts]

/-- Witness for C3 at Scenario F: the malformed line `"oops"` between the two
valid message lines `"A"` and `"B"` is skipped and both messages are still
dispatched. -/
theorem C3_malformed_line_skipped_witness :
    dispatchedTexts (processLines demoDecode ["A", "oops", "B"]) =
      ["**Alert**: disk full", "ping"] := by
  have h := C3_malformed_line_skipped demoDecode "A" "oops" "B" [] demoMessage1
    demoMessage2 (by decide) (by decide) rfl (by decide) rfl
  have h2 := h.2
  simpa [slackTextOf, demoMessage1, demoMessage2, processLines, dispatchedTexts] using h2

/-- C4: a successfully decoded event whose kind is not `"message"` (`"open"`,
`"keepalive"`, or anything else) dispatches nothing, and the loop continues
with the remaining lines of the same session. -/
theorem C4_non_message_no_dispatch (decode : String → Option ntfyMessage)
    (line : String) (msg : ntfyMessage) (rest : List String)
    (hd : decode line = some msg) (he : msg.Event ≠ "message") :
    dispatchedTexts (handleLine decode line) = [] ∧
    processLines decode (line :: rest) =
      handleLine decode line ++ processLines decode rest := by
  refine ⟨?_, rfl⟩
  simp only [handleLine, hd, handleEvent]
  by_cases h1 : msg.Event = "open"
  · simp [h1, dispatchedTexts]
  · by_cases h2 : msg.Event = "keepalive"
    · simp [h1, h2, dispatchedTexts]
    · have h3 : ¬ msg.Event = "message" := he
      simp [h1, h2, h3, dispatchedTexts]

/-- Witness for C4 at Scenario C: a `keepalive` line dispatches nothing and
the next line is still processed. -/
theorem C4_non_message_no_dispatch_witness :
    dispatchedTexts (handleLine demoDecode "K") = [] ∧
    processLines demoDecode ["K", "A"] =
      handleLine demoDecode "K" ++ processLines demoDecode ["A"] := by
  exact C4_non_message_no_dispatch demoDecode "K" demoKeepalive ["A"]
    (by decide) (by decide)

/-- C5: with a non-nil destination, the delivery function reports success if
and only if the outbound POST completes with a status code strictly below 400
(the fully read body being logged before returning); a transport failure is
returned as the connection error, and a completed exchange with status 400 or
more fails with `"error status code {code}"`. -/
theorem C5_delivery_outcome (url : String)
    (doPost : HttpRequest → Except String SlackHttpResponse) (w : slackMessage) :
    ((sendToSlack url doPost (some w)).1 = Except.ok () ↔
      ∃ resp, doPost (buildSlackRequest url (marshalSlackMessage w)) = Except.ok resp ∧
        resp.statusCode < 400) ∧
    (∀ e, doPost (buildSlackRequest url (marshalSlackMessage w)) = Except.error e →
      (sendToSlack url doPost (some w)).1 = Except.error e) ∧
    (∀ resp, doPost (buildSlackRequest url (marshalSlackMessage w)) = Except.ok resp →
      400 ≤ resp.statusCode →
      (sendToSlack url doPost (some w)).1 =
        Except.error ("error status code " ++ toString resp.statusCode)) ∧
    (∀ resp, doPost (buildSlackRequest url (marshalSlackMessage w)) = Except.ok resp →
      (sendToSlack url doPost (some w)).2 =
        [SlackEffect.logSlackResponse resp.statusCode resp.body]) := by
  cases hdp : doPost (buildSlackRequest url (marshalSlackMessage w)) with
  | error e =>
    refine ⟨?_, ?_, ?_, ?_⟩
    · simp only [sendToSlack_some, hdp]
      constructor
      · intro h; exact Except.noConfusion h
      · rintro ⟨resp, hresp, -⟩
        exact Except.noConfusion hresp
    · intro e' he'
      injection he' with h
      simp only [sendToSlack_some, hdp, h]
    · intro resp hresp
      exact Except.noConfusion hresp
    · intro resp hresp
      exact Except.noConfusion hresp
  | ok resp =>
    refine ⟨?_, ?_, ?_, ?_⟩
    · simp only [sendToSlack_some, hdp]
      by_cases hge : resp.statusCode ≥ 400
      · rw [if_pos hge]
        constructor
        · intro h; exact Except.noConfusion h
        · rintro ⟨resp', hresp', hlt⟩
          injection hresp' with h
          subst h
          omega
      · rw [if_neg hge]
        exact ⟨fun _ => ⟨resp, rfl, by omega⟩, fun _ => rfl⟩
    · intro e' he'
      exact Except.noConfusion he'
    · intro resp' hresp' hge'
      injection hresp' with h
      subst h
      simp only [sendToSlack_some, hdp]
      rw [if_pos hge']
    · intro resp' hresp'
      injection hresp' with h
      subst h
      simp only [sendToSlack_some, hdp]
      by_cases hge : resp.statusCode ≥ 400
      · rw [if_pos hge]
      · rw [if_neg hge]

/-- Witness for C5 at Scenario E: a webhook answering 500 makes the delivery
fail with `"error status code 500"`, and the response body was fully read and
logged. -/
theorem C5_delivery_outcome_witness :
    (sendToSlack "https://hooks.example/T/B/X"
        (fun _ => Except.ok ⟨500, "no_service"⟩) (some ⟨"hi"⟩)).1 =
      Except.error "error status code 500" ∧
    (sendToSlack "https://hooks.example/T/B/X"
        (fun _ => Except.ok ⟨500, "no_service"⟩) (some ⟨"hi"⟩)).2 =
      [SlackEffect.logSlackResponse 500 "no_service"] := by
  have h := C5_delivery_outcome "https://hooks.example/T/B/X"
    (fun _ => Except.ok ⟨500, "no_service"⟩) ⟨"hi"⟩
  exact ⟨h.2.2.1 ⟨500, "no_service"⟩ rfl (by decide), h.2.2.2 ⟨500, "no_service"⟩ rfl⟩

/-- C6 counterexample: the claim says the session fails "with an error that
carries the received status code", but the returned error value is the
constant `errors.New("invalid response code from ntfy")`: the sessions for
statuses 401 and 500 return equal error values, so no status code can be
recovered from the error (it is carried only by the log). -/
theorem C6_counterexample_error_is_constant :
    (waitForNtfyMessage ⟨"ntfy.sh", "alerts", none⟩
        (fun _ => Except.ok ⟨401, [], StreamEnd.eof⟩) (fun _ => none)).1 =
      (waitForNtfyMessage ⟨"ntfy.sh", "alerts", none⟩
        (fun _ => Except.ok ⟨500, [], StreamEnd.eof⟩) (fun _ => none)).1 ∧
    (waitForNtfyMessage ⟨"ntfy.sh", "alerts", none⟩
        (fun _ => Except.ok ⟨401, [], StreamEnd.eof⟩) (fun _ => none)).1 =
      Except.error "invalid response code from ntfy" ∧
    (401 : Nat) ≠ 500 :=
  ⟨rfl, rfl, by omega⟩

/-- C6 (amended): a non-200 inbound response makes the session fail with the
fixed error `"invalid response code from ntfy"`, the received status code
being recorded in the error log but not carried by the returned error value,
and the response body is not consumed: the outcome is independent of the body
lines and of how the stream ends. -/
theorem C6_non_200_fixed_error (cfg : ntfyConfig)
    (decode : String → Option ntfyMessage) (status : Nat)
    (lines lines' : List String) (ending ending' : StreamEnd)
    (h : status ≠ 200) :
    waitForNtfyMessage cfg (fun _ => Except.ok ⟨status, lines, ending⟩) decode =
      (Except.error "invalid response code from ntfy",
       [SessionEffect.logInvalidStatus 200 status]) ∧
    waitForNtfyMessage cfg (fun _ => Except.ok ⟨status, lines, ending⟩) decode =
      waitForNtfyMessage cfg (fun _ => Except.ok ⟨status, lines', ending'⟩) decode := by
  constructor
  · simp [waitForNtfyMessage, h]
  · simp [waitForNtfyMessage, h]

/-- Witness for C6 (amended) at Scenario D: a 401 response yields the fixed
error with the status code in the log, independently of the body. -/
theorem C6_non_200_fixed_error_witness :
    waitForNtfyMessage ⟨"ntfy.sh", "alerts", none⟩
        (fun _ => Except.ok ⟨401, ["A"], StreamEnd.eof⟩) demoDecode =
      (Except.error "invalid response code from ntfy",
       [SessionEffect.logInvalidStatus 200 401]) := by
  exact (C6_non_200_fixed_error ⟨"ntfy.sh", "alerts", none⟩ demoDecode 401
    ["A"] [] StreamEnd.eof StreamEnd.eof (by omega)).1

/-- C8: the subscription request is a GET to exactly
`"https://" ++ host ++ "/" ++ topic ++ "/json"`; however, the Authorization
header is NOT attached "exactly when the credential is provided": `main`
initialises `ntfyAuth` with `flag.String`, which never returns nil, so the
guard `if ntfyAuth != nil` (line 101) is always true and every request of the
program carries an `Authorization` header — `"Bearer "` with an empty token
when no credential is configured.  The last conjunct evaluates the request at
the failing input (no `-ntfy-auth` flag, `NTFY_AUTH` unset). -/
theorem C8_url_and_auth_header :
    (∀ envNtfyAuth flagNtfyAuth,
      (mainNtfyAuth envNtfyAuth flagNtfyAuth).isSome = true) ∧
    (∀ cfg : ntfyConfig, (buildNtfyRequest cfg).method = "GET" ∧
      (buildNtfyRequest cfg).url =
        "https://" ++ cfg.ntfyDomain ++ "/" ++ cfg.ntfyTopic ++ "/json") ∧
    buildNtfyRequest ⟨"ntfy.sh", "alerts", mainNtfyAuth "" none⟩ =
      ⟨"GET", "https://ntfy.sh/alerts/json",
       [("Authorization", "Bearer ")], none⟩ := by
  refine ⟨?_, ?_, rfl⟩
  · intro env flagv; simp [mainNtfyAuth]
  · intro cfg
    cases h : cfg.ntfyAuth <;> simp [buildNtfyRequest, h]

/-- C10: a line of more than 65536 bytes stops the read loop: the session
processes only the lines before it, silently drops it and everything after it
(unlike a decode failure, which is logged and skipped), returns `nil`, and
the supervisory iteration after such a clean return logs, sleeps 30 seconds
and calls the session again. -/
theorem C10_oversized_line_ends_session (cfg : ntfyConfig)
    (decode : String → Option ntfyMessage) (pre post : List String)
    (l : String) (ending : StreamEnd)
    (hl : maxScanTokenSize < l.utf8ByteSize)
    (hpre : ∀ x ∈ pre, x.utf8ByteSize < maxScanTokenSize) :
    waitForNtfyMessage cfg
        (fun _ => Except.ok ⟨200, pre ++ l :: post, ending⟩) decode =
      (Except.ok (), processLines decode pre) ∧
    mainIteration (Except.ok ()) =
      [MainEvent.callSession, MainEvent.logRestart, MainEvent.sleep 30] := by
  have hscan : scannedLines (pre ++ l :: post) = pre := by
    rw [scannedLines]
    apply takeWhile_append_sat
    · intro x hx
      simpa using hpre x hx
    · simp
      omega
  refine ⟨?_, rfl⟩
  simp only [waitForNtfyMessage]
  rw [hscan]
  rfl

/-- Witness for C10: a 65537-byte line as the first record ends the session
immediately: the following valid message line `"A"` is never processed and
the session returns cleanly with no effects. -/
theorem C10_oversized_line_ends_session_witness :
    maxScanTokenSize < oversizedLine.utf8ByteSize ∧
    waitForNtfyMessage ⟨"ntfy.sh", "alerts", none⟩
        (fun _ => Except.ok ⟨200, oversizedLine :: ["A"], StreamEnd.eof⟩)
        demoDecode =
      (Except.ok (), []) := by
  have hl : maxScanTokenSize < oversizedLine.utf8ByteSize := by
    rw [oversizedLine_size, maxScanTokenSize]
    omega
  have h := C10_oversized_line_ends_session ⟨"ntfy.sh", "alerts", none⟩
    demoDecode [] ["A"] oversizedLine StreamEnd.eof hl (by simp)
  exact ⟨hl, h.1⟩

end NtfyToSlack
